import Mathlib

/-!
# SIGEF federated geospatial query engine — shallow embedding

This file embeds, in Lean 4, the core of the `sigef-api` repository:
the WFS federation client (`src/infrastructure/wfs/client.py`), the
orchestrating service (`src/services/incra_service.py`), the static
configuration tables (`src/core/config.py`), the Pydantic validation
types (`src/api/v1/schemas.py`) and the bbox-path route
(`src/api/v1/routes/consulta.py`).

Modelling conventions:
* Python `float` coordinates and areas are modelled as exact rationals `ℚ`.
* Upstream HTTP calls are abstracted as explicit oracle functions passed
  to the embedded definitions; a call outcome is `Except String α`
  (`Except.error` models a raised exception whose message is the string).
* Feature records are kept generic (`F`), since the engine treats them
  opaquely except in the normaliser, which is embedded separately over an
  explicit attribute-value type.
* Mutable state (the municipality cache) is threaded explicitly; the
  embedding additionally reports the number of external lookups an
  operation performs so that call-count properties can be stated.
-/

namespace Sigef

/-- `LayerType` enum of `src/api/v1/schemas.py` (closed enumeration of
semantic WFS layers). -/
inductive LayerType where
  | sigef_particular
  | sigef_publico
  | snci_privado
  | snci_publico
  | assentamentos
  | quilombolas
  | pendentes_titulacao
deriving DecidableEq, Repr

/-- `.value` of the Python `str`-enum member. -/
def LayerType.value : LayerType → String
  | .sigef_particular => "sigef_particular"
  | .sigef_publico => "sigef_publico"
  | .snci_privado => "snci_privado"
  | .snci_publico => "snci_publico"
  | .assentamentos => "assentamentos"
  | .quilombolas => "quilombolas"
  | .pendentes_titulacao => "pendentes_titulacao"

/-- Iteration order of `for layer in LayerType` (Python enum definition
order). -/
def LayerType.all : List LayerType :=
  [.sigef_particular, .sigef_publico, .snci_privado, .snci_publico,
   .assentamentos, .quilombolas, .pendentes_titulacao]

/-- `ServerType` enum of `src/api/v1/schemas.py`. -/
inductive ServerType where
  | incra
  | geoone
  | auto
deriving DecidableEq, Repr

/-- The validated `BoundingBox` Pydantic model (WGS84 degrees, modelled
as exact rationals). -/
structure BoundingBox where
  x_min : ℚ
  y_min : ℚ
  x_max : ℚ
  y_max : ℚ
deriving DecidableEq, Repr

/-- Pydantic construction of `BoundingBox`: per-field range constraints
(`ge`/`le` of each `Field`) in declaration order, then the
`field_validator`s `validate_x_max` (`x_max > x_min`) and
`validate_y_max` (`y_max > y_min`).  `Except.error` models a failed
validation (Pydantic `ValidationError`). -/
def mkBoundingBox (x_min y_min x_max y_max : ℚ) : Except String BoundingBox :=
  if ¬ (-180 ≤ x_min ∧ x_min ≤ 180) then .error "x_min out of range"
  else if ¬ (-90 ≤ y_min ∧ y_min ≤ 90) then .error "y_min out of range"
  else if ¬ (-180 ≤ x_max ∧ x_max ≤ 180) then .error "x_max out of range"
  else if x_max ≤ x_min then .error "x_max deve ser maior que x_min"
  else if ¬ (-90 ≤ y_max ∧ y_max ≤ 90) then .error "y_max out of range"
  else if y_max ≤ y_min then .error "y_max deve ser maior que y_min"
  else .ok ⟨x_min, y_min, x_max, y_max⟩

/-- One value of `LAYER_MAPPING` in `src/core/config.py`. -/
structure LayerConfig where
  name : String
  incra_layer : String
  geoone_layer : String
  incra_url_template : String
deriving DecidableEq, Repr

/-- The `LAYER_MAPPING` dict of `src/core/config.py`, as an association
list in source order. -/
def LAYER_MAPPING : List (String × LayerConfig) :=
  [ ("sigef_particular",
     ⟨"Imóveis Certificados SIGEF - Particular",
      "ms:certificada_sigef_particular_{uf}",
      "GeoINCRA:certificado_sigef_privado",
      "https://acervofundiario.incra.gov.br/i3geo/ogc.php?tema=certificada_sigef_particular_{uf}"⟩),
    ("sigef_publico",
     ⟨"Imóveis Certificados SIGEF - Público",
      "ms:certificada_sigef_publico_{uf}",
      "GeoINCRA:certificado_sigef_publico",
      "https://acervofundiario.incra.gov.br/i3geo/ogc.php?tema=certificada_sigef_publico_{uf}"⟩),
    ("snci_privado",
     ⟨"SNCI Privado",
      "ms:snci_privado_{uf}",
      "GeoINCRA:snci_privado",
      "https://acervofundiario.incra.gov.br/i3geo/ogc.php?tema=snci_privado_{uf}"⟩),
    ("snci_publico",
     ⟨"SNCI Público",
      "ms:snci_publico_{uf}",
      "GeoINCRA:snci_publico",
      "https://acervofundiario.incra.gov.br/i3geo/ogc.php?tema=snci_publico_{uf}"⟩),
    ("assentamentos",
     ⟨"Assentamentos",
      "ms:assentamentos_{uf}",
      "GeoINCRA:assentamentos",
      "https://acervofundiario.incra.gov.br/i3geo/ogc.php?tema=assentamentos_{uf}"⟩),
    ("quilombolas",
     ⟨"Quilombolas",
      "ms:quilombolas_{uf}",
      "GeoINCRA:quilombolas",
      "https://acervofundiario.incra.gov.br/i3geo/ogc.php?tema=quilombolas_{uf}"⟩),
    ("pendentes_titulacao",
     ⟨"Pendentes de Titulação",
      "ms:pendentes_titulacao_{uf}",
      "GeoINCRA:pendentes_titulacao",
      "https://acervofundiario.incra.gov.br/i3geo/ogc.php?tema=pendentes_titulacao_{uf}"⟩) ]

/-- `LAYER_MAPPING.get(key)` (Python dict lookup, `None` on a missing
key). -/
def LAYER_MAPPING_get (key : String) : Option LayerConfig :=
  (LAYER_MAPPING.lookup key)

/-- One value of `UF_MAPPING` in `src/core/config.py`: display name and
the raw 4-element bbox list `[x_min, y_min, x_max, y_max]` (stored
verbatim; for AP and RR the two latitude slots are inverted in the
source). -/
structure UfConfig where
  name : String
  bbox : List ℚ
deriving DecidableEq, Repr

/-- The `UF_MAPPING` dict of `src/core/config.py`, in source order.
Every two-decimal float literal `d` of the source is transcribed exactly
as the rational `mkRat (100 * d) 100` (e.g. `-73.98` is
`mkRat (-7398) 100`); `mkRat` is used instead of decimal notation so
that the table stays kernel-computable. -/
def UF_MAPPING : List (String × UfConfig) :=
  [ ("AC", ⟨"Acre", [mkRat (-7398) 100, mkRat (-1115) 100, mkRat (-6664) 100, mkRat (-707) 100]⟩),
    ("AL", ⟨"Alagoas", [mkRat (-3823) 100, mkRat (-1049) 100, mkRat (-3515) 100, mkRat (-882) 100]⟩),
    ("AP", ⟨"Amapá", [mkRat (-5488) 100, mkRat 445 100, mkRat (-4985) 100, mkRat (-4) 100]⟩),
    ("AM", ⟨"Amazonas", [mkRat (-7379) 100, mkRat (-982) 100, mkRat (-5608) 100, mkRat 224 100]⟩),
    ("BA", ⟨"Bahia", [mkRat (-4662) 100, mkRat (-1835) 100, mkRat (-3734) 100, mkRat (-854) 100]⟩),
    ("CE", ⟨"Ceará", [mkRat (-4142) 100, mkRat (-787) 100, mkRat (-3724) 100, mkRat (-279) 100]⟩),
    ("DF", ⟨"Distrito Federal", [mkRat (-4828) 100, mkRat (-1604) 100, mkRat (-4731) 100, mkRat (-1550) 100]⟩),
    ("ES", ⟨"Espírito Santo", [mkRat (-4188) 100, mkRat (-2130) 100, mkRat (-3967) 100, mkRat (-1789) 100]⟩),
    ("GO", ⟨"Goiás", [mkRat (-5324) 100, mkRat (-1948) 100, mkRat (-4591) 100, mkRat (-1239) 100]⟩),
    ("MA", ⟨"Maranhão", [mkRat (-4861) 100, mkRat (-1027) 100, mkRat (-4184) 100, mkRat (-102) 100]⟩),
    ("MT", ⟨"Mato Grosso", [mkRat (-6163) 100, mkRat (-1804) 100, mkRat (-5022) 100, mkRat (-735) 100]⟩),
    ("MS", ⟨"Mato Grosso do Sul", [mkRat (-5816) 100, mkRat (-2407) 100, mkRat (-5093) 100, mkRat (-1716) 100]⟩),
    ("MG", ⟨"Minas Gerais", [mkRat (-5105) 100, mkRat (-2292) 100, mkRat (-3986) 100, mkRat (-1424) 100]⟩),
    ("PA", ⟨"Pará", [mkRat (-5888) 100, mkRat (-982) 100, mkRat (-4604) 100, mkRat 261 100]⟩),
    ("PB", ⟨"Paraíba", [mkRat (-3879) 100, mkRat (-820) 100, mkRat (-3479) 100, mkRat (-602) 100]⟩),
    ("PR", ⟨"Paraná", [mkRat (-5462) 100, mkRat (-2672) 100, mkRat (-4802) 100, mkRat (-2251) 100]⟩),
    ("PE", ⟨"Pernambuco", [mkRat (-4135) 100, mkRat (-948) 100, mkRat (-3480) 100, mkRat (-716) 100]⟩),
    ("PI", ⟨"Piauí", [mkRat (-4598) 100, mkRat (-1091) 100, mkRat (-4038) 100, mkRat (-274) 100]⟩),
    ("RJ", ⟨"Rio de Janeiro", [mkRat (-4489) 100, mkRat (-2337) 100, mkRat (-4096) 100, mkRat (-2076) 100]⟩),
    ("RN", ⟨"Rio Grande do Norte", [mkRat (-3860) 100, mkRat (-698) 100, mkRat (-3496) 100, mkRat (-483) 100]⟩),
    ("RS", ⟨"Rio Grande do Sul", [mkRat (-5765) 100, mkRat (-3375) 100, mkRat (-4969) 100, mkRat (-2708) 100]⟩),
    ("RO", ⟨"Rondônia", [mkRat (-6674) 100, mkRat (-1370) 100, mkRat (-5978) 100, mkRat (-797) 100]⟩),
    ("RR", ⟨"Roraima", [mkRat (-6482) 100, mkRat 527 100, mkRat (-5899) 100, mkRat 116 100]⟩),
    ("SC", ⟨"Santa Catarina", [mkRat (-5384) 100, mkRat (-2935) 100, mkRat (-4830) 100, mkRat (-2596) 100]⟩),
    ("SP", ⟨"São Paulo", [mkRat (-5311) 100, mkRat (-2531) 100, mkRat (-4419) 100, mkRat (-1979) 100]⟩),
    ("SE", ⟨"Sergipe", [mkRat (-3822) 100, mkRat (-1157) 100, mkRat (-3642) 100, mkRat (-949) 100]⟩),
    ("TO", ⟨"Tocantins", [mkRat (-5074) 100, mkRat (-1347) 100, mkRat (-4570) 100, mkRat (-517) 100]⟩) ]

/-- `WFSService._bboxes_intersect`: inclusive separating-axis test on
the raw slots of the stored 4-element list
(`not (x_max < b[0] or x_min > b[2] or y_max < b[1] or y_min > b[3])`).
A stored list that does not have exactly 4 elements would raise
`IndexError` in Python; it never occurs for `UF_MAPPING` entries and is
mapped to `false` here. -/
def bboxes_intersect (bbox1 : BoundingBox) (bbox2 : List ℚ) : Bool :=
  match bbox2 with
  | [b0, b1, b2, b3] =>
      ¬ (bbox1.x_max < b0 ∨ bbox1.x_min > b2 ∨ bbox1.y_max < b1 ∨ bbox1.y_min > b3)
  | _ => false

/-- Python `str.lower()`, implemented character-wise so that it stays
kernel-computable. -/
def strLower (s : String) : String := ⟨s.data.map Char.toLower⟩

/-- `WFSService._detect_ufs_in_bbox`: iterate `UF_MAPPING` in dict
order, keep the lowercased key of every UF whose stored envelope
intersects the query box. -/
def detect_ufs_in_bbox (bbox : BoundingBox) : List String :=
  (UF_MAPPING.filter (fun p => bboxes_intersect bbox p.2.bbox)).map
    (fun p => strLower p.1)

/-- Helper for Python substring containment: does the second list occur
at the head of the first? -/
def listStartsWith : List Char → List Char → Bool
  | _, [] => true
  | [], _ :: _ => false
  | a :: as, b :: bs => a = b && listStartsWith as bs

/-- Helper for Python substring containment: does `needle` occur
anywhere in the list? -/
def listContainsSub (needle : List Char) : List Char → Bool
  | [] => needle.isEmpty
  | c :: rest => listStartsWith (c :: rest) needle || listContainsSub needle rest

/-- Python `sub in s` substring test on strings. -/
def containsSubstr (s sub : String) : Bool :=
  listContainsSub sub.data s.data

/-- Helper for `"...{uf}...".format(uf=uf)`: replace every occurrence
of the placeholder `\x7buf\x7d` in a character list. -/
def formatUfChars (uf : List Char) : List Char → List Char
  | '{' :: 'u' :: 'f' :: '}' :: rest => uf ++ formatUfChars uf rest
  | c :: rest => c :: formatUfChars uf rest
  | [] => []

/-- Python `template.format(uf=uf)` for the URL/typename templates of
`LAYER_MAPPING` (whose only placeholder is `\x7buf\x7d`). -/
def pyFormatUf (template : String) (uf : String) : String :=
  ⟨formatUfChars uf.data template.data⟩

/-- `WFSService._get_layer_variants`: list of `(url, typename)` pairs
to query for one UF.  The source docstring promises three norm variants
for the two certified SIGEF layers, but the `variants` list built in
the `if` branch contains only the default layer, exactly like the
`else` branch. -/
def get_layer_variants (layer_config : LayerConfig) (uf : String) : List (String × String) :=
  let base_url_template := layer_config.incra_url_template
  let base_layer := layer_config.incra_layer
  if containsSubstr base_layer "sigef_particular" || containsSubstr base_layer "sigef_publico" then
    [(pyFormatUf base_url_template uf, pyFormatUf base_layer uf)]
  else
    [(pyFormatUf base_url_template uf, pyFormatUf base_layer uf)]

/-- Outcome of one upstream INCRA HTTP query, abstracted over the
request transport: given the request URL and typename it yields the
decoded feature list, or an error covering every failure the Python
code turns into a skipped variant (non-success status, empty body,
non-JSON content type, transport error, timeout). -/
def IncraOracle (F : Type) := String → String → Except String (List F)

/-- Outcome of one upstream GeoOne HTTP query, keyed by typename. -/
def GeooneOracle (F : Type) := String → Except String (List F)

variable {F I : Type}

/-- `WFSService._query_incra_uf`: query every layer variant for one UF,
skipping (`except ... continue`) any variant whose query fails, and
aggregate the successful feature lists.  Since every failure is
absorbed per variant, the function itself never raises.  The `bbox`
parameter is carried in the request parameters, which the oracle
abstracts. -/
def query_incra_uf (incraHttp : IncraOracle F) (bbox : BoundingBox)
    (layer_config : LayerConfig) (uf : String) : List F :=
  (get_layer_variants layer_config uf).foldl
    (fun all_features p =>
      match incraHttp p.1 p.2 with
      | .ok features => all_features ++ features
      | .error _ => all_features)
    []

/-- `WFSService.get_features_incra`: the function body begins with an
unconditional `return [], "incra"` (client.py line 87), so every call
returns an empty feature list with label `"incra"` without consulting
`LAYER_MAPPING`, detecting UFs, or issuing any upstream query; the rest
of the body is unreachable (see
`get_features_incra_unreachable_body`). -/
def get_features_incra (incraHttp : IncraOracle F) (bbox : BoundingBox)
    (layer_type : LayerType) : Except String (List F × String) :=
  .ok ([], "incra")

/-- The unreachable remainder of `WFSService.get_features_incra`
(client.py lines 89-113, dead code behind the early return): resolve
the layer config, detect intersecting UFs, query each UF via
`query_incra_uf` (the per-UF `except` is vacuous since
`query_incra_uf` absorbs every failure per variant), and aggregate. -/
def get_features_incra_unreachable_body (incraHttp : IncraOracle F)
    (bbox : BoundingBox) (layer_type : LayerType) :
    Except String (List F × String) :=
  match LAYER_MAPPING_get layer_type.value with
  | none => .error ("Camada não configurada: " ++ layer_type.value)
  | some layer_config =>
    let uf_list := detect_ufs_in_bbox bbox
    if uf_list.isEmpty then .ok ([], "incra")
    else
      .ok (uf_list.foldl
        (fun all_features uf =>
          all_features ++ query_incra_uf incraHttp bbox layer_config uf)
        [], "incra")

/-- `WFSService.get_features_geoone`: resolve the layer config; for a
typename containing `sigef` iterate the `layer_variants` list (which
the source populates with only the base layer, despite the comment
about three norms), absorbing per-variant failures; for any other
layer issue a single query whose failure propagates (no `try` around
it). -/
def get_features_geoone (geooneHttp : GeooneOracle F) (bbox : BoundingBox)
    (layer_type : LayerType) : Except String (List F × String) :=
  match LAYER_MAPPING_get layer_type.value with
  | none => .error ("Camada não configurada: " ++ layer_type.value)
  | some layer_config =>
    let base_layer := layer_config.geoone_layer
    if containsSubstr base_layer "sigef" then
      let layer_variants := [base_layer]
      .ok (layer_variants.foldl
        (fun all_features layer_name =>
          match geooneHttp layer_name with
          | .ok features => all_features ++ features
          | .error _ => all_features)
        [], "geoone")
    else
      match geooneHttp base_layer with
      | .ok features => .ok (features, "geoone")
      | .error e => .error e

/-- `WFSService.get_features_auto` (client.py lines 43-67), with the
two provider sub-calls abstracted by their outcomes: try INCRA; if it
returns a non-empty feature list return it; if it raises, swallow the
exception; in both remaining cases (exception, or success with zero
features) return the GeoOne result, whose own failure propagates. -/
def get_features_auto (incra_result geoone_result : Except String (List F × String)) :
    Except String (List F × String) :=
  match incra_result with
  | .ok (features, servidor) =>
      if features.isEmpty then geoone_result else .ok (features, servidor)
  | .error _ => geoone_result

/-- A raw feature attribute value, as far as `IncraService._parse_area`
inspects one: a number (Python `int`/`float`, modelled as an exact
rational) or a string.  Values of other shapes (lists, dicts, `None`)
behave for this code path like an absent key or a non-numeric string. -/
inductive AttrVal where
  | num (q : ℚ)
  | txt (s : String)
deriving DecidableEq, Repr

/-- Python truthiness of an attribute value, as used by the `or`
fallback chains (`0`, `0.0` and the empty string are falsy). -/
def AttrVal.truthy : AttrVal → Bool
  | .num q => q ≠ 0
  | .txt s => s ≠ ""

/-- Embedding of a Python `or`-chain `props.get(k1) or props.get(k2)
or ... or None`: the value of the first listed key that is present and
truthy, else `none`. -/
def props_get_or_chain (props : List (String × AttrVal)) : List String → Option AttrVal
  | [] => none
  | k :: rest =>
    match props.lookup k with
    | some v => if v.truthy then some v else props_get_or_chain props rest
    | none => props_get_or_chain props rest

/-- Value of a digit string (most significant first). -/
def digitsVal (l : List Char) : ℕ :=
  l.foldl (fun a c => 10 * a + (c.toNat - 48)) 0

/-- Python `float(s)` on a string, restricted to the plain decimal
grammar (optional sign, integer digits, optional fractional digits,
surrounding whitespace); `none` models the `ValueError` raised on a
non-numeric string. -/
def pyFloatOfChars (chars : List Char) : Option ℚ :=
  let l := ((chars.dropWhile Char.isWhitespace).reverse.dropWhile Char.isWhitespace).reverse
  let signed : ℚ × List Char :=
    match l with
    | '-' :: rest => (-1, rest)
    | '+' :: rest => (1, rest)
    | _ => (1, l)
  let ip := signed.2.takeWhile (fun c => c ≠ '.')
  match signed.2.dropWhile (fun c => c ≠ '.') with
  | [] =>
    if ip.isEmpty || ¬ ip.all Char.isDigit then none
    else some (signed.1 * (digitsVal ip : ℚ))
  | _ :: fp =>
    if fp.contains '.' then none
    else if ip.isEmpty && fp.isEmpty then none
    else if ip.all Char.isDigit && fp.all Char.isDigit then
      some (signed.1 * ((digitsVal ip : ℚ) + (digitsVal fp : ℚ) / ((10 : ℚ) ^ fp.length)))
    else none

/-- Python `float(v)` on an attribute value (`none` models the
`ValueError`/`TypeError` caught by `_parse_area`). -/
def pyFloat : AttrVal → Option ℚ
  | .num q => some q
  | .txt s => pyFloatOfChars s.data

/-- Round to the nearest integer, ties to even — the rounding of
Python `round` (floats are modelled as exact rationals). -/
def roundHalfEven (x : ℚ) : ℤ :=
  if x - ⌊x⌋ = 1 / 2 then (if 2 ∣ ⌊x⌋ then ⌊x⌋ else ⌊x⌋ + 1) else round x

/-- Python `round(x, 4)` on an exact rational. -/
def pyRound4 (x : ℚ) : ℚ :=
  (roundHalfEven (x * 10000) : ℚ) / 10000

/-- `IncraService._parse_area`: resolve the area through the ordered
candidate keys `area_ha`, `area`, `area_hecta`, `area_calc`; convert
with `float` (`none` on a non-numeric value); divide by `10000` when
the value exceeds `1000000` (assumed m²); round to 4 decimal places. -/
def parse_area (props : List (String × AttrVal)) : Option ℚ :=
  match props_get_or_chain props ["area_ha", "area", "area_hecta", "area_calc"] with
  | none => none
  | some area_value =>
    match pyFloat area_value with
    | none => none
    | some area =>
      let area := if area > 1000000 then area / 10000 else area
      some (pyRound4 area)

/-- `IncraService._get_municipio_name`, with the IBGE HTTP lookup
abstracted as an oracle (`some nome` = HTTP 200 with the decoded name,
`none` = non-success status, transport error or timeout) and the cache
dict threaded explicitly.  The third component counts the external
lookups the call performs (0 on a cache hit, 1 otherwise).  On a
successful miss the resolved name is appended to the cache; on a
failed miss the original code is returned and the cache is left
unchanged. -/
def get_municipio_name (ibge_lookup : String → Option String)
    (cache : List (String × String)) (codigo_ibge : String) :
    String × List (String × String) × ℕ :=
  match cache.lookup codigo_ibge with
  | some nome => (nome, cache, 0)
  | none =>
    match ibge_lookup codigo_ibge with
    | some nome => (nome, cache ++ [(codigo_ibge, nome)], 1)
    | none => (codigo_ibge, cache, 1)

/-- The `ConsultaResponse` Pydantic model, restricted to the fields the
engine computes (the wall-clock `tempo_resposta_ms` and the constant
`type = "FeatureCollection"` are omitted).  `F` is the raw feature
type, `I` the processed record type (`ImovelResponse`). -/
structure ConsultaResponse (F : Type) (I : Type) where
  sucesso : Bool
  mensagem : String
  total : ℕ
  servidor_utilizado : String
  camada : String
  bbox_consultado : BoundingBox
  imoveis : List I
  features : List F
deriving Repr

/-- Deduplicating append of `IncraService.consultar_imoveis`
(`if servidor not in servidores_usados: servidores_usados.append`). -/
def dedupAppend (servidores : List String) (servidor : String) : List String :=
  if servidor ∈ servidores then servidores else servidores ++ [servidor]

/-- One step of the all-layers AUTO loop of
`IncraService.consultar_imoveis`: on success with a non-empty feature
list, extend the aggregate and record the provider; on an empty success
do nothing; on an exception skip the layer (`except ... continue`). -/
def autoLayerStep (wfsAuto : LayerType → Except String (List F × String))
    (acc : List F × List String) (layer : LayerType) : List F × List String :=
  match wfsAuto layer with
  | .ok (features, servidor) =>
      if features.isEmpty then acc
      else (acc.1 ++ features, dedupAppend acc.2 servidor)
  | .error _ => acc

/-- The `try`-block query phase of `IncraService.consultar_imoveis`
(before truncation): AUTO iterates every `LayerType` through
`autoLayerStep` and joins the recorded providers with `+` (or reports
`"auto"` when none was recorded); INCRA and GEOONE run the respective
single query, whose exception propagates.  The provider sub-calls are
abstracted by their outcomes (`wfsAuto layer` is the outcome of
`get_features_auto` for that layer; `wfsIncra`/`wfsGeoone` the outcomes
of the provider-specific calls). -/
def consultar_inner (wfsAuto : LayerType → Except String (List F × String))
    (wfsIncra wfsGeoone : Except String (List F × String))
    (server_type : ServerType) : Except String (List F × String) :=
  match server_type with
  | .auto =>
    let r := LayerType.all.foldl (autoLayerStep wfsAuto) ([], [])
    .ok (r.1, if r.2.isEmpty then "auto" else String.intercalate "+" r.2)
  | .incra => wfsIncra
  | .geoone => wfsGeoone

/-- `IncraService.consultar_imoveis`: run the query phase
(`consultar_inner`), truncate the aggregate to `limite`, process each
feature (`process_feature` abstracts `_process_feature_async`; a
feature whose processing raises is logged and skipped), and assemble
the successful `ConsultaResponse`.  Any exception escaping the `try`
block is converted by the top-level `except` into a failure response
with zero records, provider label `"erro"` and the exception message —
the function is total, so no exception propagates to the caller. -/
def consultar_imoveis (wfsAuto : LayerType → Except String (List F × String))
    (wfsIncra wfsGeoone : Except String (List F × String))
    (process_feature : F → Except String I)
    (bbox : BoundingBox) (layer_type : LayerType) (server_type : ServerType)
    (limite : ℕ) : ConsultaResponse F I :=
  match consultar_inner wfsAuto wfsIncra wfsGeoone server_type with
  | .error e =>
    { sucesso := false
      mensagem := "Erro na consulta: " ++ e
      total := 0
      servidor_utilizado := "erro"
      camada := layer_type.value
      bbox_consultado := bbox
      imoveis := []
      features := [] }
  | .ok (features0, servidor) =>
    let features := features0.take limite
    let imoveis := features.foldl
      (fun imoveis feature =>
        match process_feature feature with
        | .ok imovel => imoveis ++ [imovel]
        | .error _ => imoveis)
      []
    let camada_nome :=
      if server_type = ServerType.auto then "Todas as Camadas"
      else
        match LAYER_MAPPING_get layer_type.value with
        | some layer_config => layer_config.name
        | none => layer_type.value
    { sucesso := true
      mensagem := "Consulta realizada com sucesso. " ++ toString imoveis.length
                    ++ " imóveis encontrados."
      total := imoveis.length
      servidor_utilizado := servidor
      camada := camada_nome
      bbox_consultado := bbox
      imoveis := imoveis
      features := features }

/-- The route `consultar_por_bbox_path` of
`src/api/v1/routes/consulta.py`, with the path string already split on
commas and its parts parsed as numbers.  A wrong part count or a
`BoundingBox` validation failure is caught and answered with a failure
response — but that response itself constructs
`BoundingBox(x_min=0, y_min=0, x_max=0, y_max=0)`, whose own validator
(`x_max > x_min`) raises; an `Except.error` result models that
exception escaping the route handler. -/
def consultar_por_bbox_path (wfsAuto : LayerType → Except String (List F × String))
    (wfsIncra wfsGeoone : Except String (List F × String))
    (process_feature : F → Except String I)
    (parts : List ℚ) (camada : LayerType) (servidor : ServerType)
    (limite : ℕ) : Except String (ConsultaResponse F I) :=
  let fallback : String → Except String (ConsultaResponse F I) := fun e =>
    match mkBoundingBox 0 0 0 0 with
    | .ok zero_bbox =>
      .ok { sucesso := false
            mensagem := "Bbox inválido: " ++ e
            total := 0
            servidor_utilizado := "erro"
            camada := camada.value
            bbox_consultado := zero_bbox
            imoveis := []
            features := [] }
    | .error e2 => .error e2
  match parts with
  | [x_min, y_min, x_max, y_max] =>
    match mkBoundingBox x_min y_min x_max y_max with
    | .ok bbox =>
      .ok (consultar_imoveis wfsAuto wfsIncra wfsGeoone process_feature
            bbox camada servidor limite)
    | .error e => fallback e
  | _ => fallback "Bbox deve ter 4 coordenadas separadas por vírgula"

/-- C1: a REGIONAL-mode query is claimed to detect intersecting
regions, invoke the regional client once per (region, layer-variant)
pair, skip failing pairs and concatenate the successes with provider
label `incra`.  The code instead returns `([], "incra")` unconditionally
(early return at client.py line 87): for an oracle answering every
query with two features and a box meeting DF, GO and MG, the reachable
code still yields no features and performs no query, while the
unreachable remainder of the body would have aggregated six. -/
theorem claim_C1_regional_query_stubbed :
    get_features_incra (fun _ _ => Except.ok [1, 2])
        ⟨-48, -16, mkRat (-474) 10, mkRat (-156) 10⟩ LayerType.sigef_particular
      = Except.ok (([] : List ℕ), "incra")
  ∧ (∀ (oracle : IncraOracle ℕ) (bbox : BoundingBox) (layer : LayerType),
      get_features_incra oracle bbox layer = Except.ok ([], "incra"))
  ∧ detect_ufs_in_bbox ⟨-48, -16, mkRat (-474) 10, mkRat (-156) 10⟩ = ["df", "go", "mg"]
  ∧ get_features_incra_unreachable_body (fun _ _ => Except.ok [1, 2])
        ⟨-48, -16, mkRat (-474) 10, mkRat (-156) 10⟩ LayerType.sigef_particular
      = Except.ok ([1, 2, 1, 2, 1, 2], "incra") := by
  refine ⟨rfl, fun _ _ _ => rfl, by decide, by rfl⟩

/-- C4: the two certified layers are claimed to be queried under all
their historical norm-variant typenames on both providers.  The code
builds a single-element variant list on each provider (despite the
docstring and log messages promising three norms): `_get_layer_variants`
returns one pair, and a GeoOne query for `sigef_particular` consults
exactly one typename (the oracle here returns its queried typename as
the single feature, exhibiting which typenames were consulted). -/
theorem claim_C4_single_norm_variant :
    ((LAYER_MAPPING_get "sigef_particular").map
        (fun layer_config => (get_layer_variants layer_config "df").length) = some 1)
  ∧ ((LAYER_MAPPING_get "sigef_publico").map
        (fun layer_config => (get_layer_variants layer_config "df").length) = some 1)
  ∧ get_features_geoone (fun layer_name => Except.ok [layer_name])
        ⟨-48, -16, -47, -15⟩ LayerType.sigef_particular
      = Except.ok (["GeoINCRA:certificado_sigef_privado"], "geoone")
  ∧ get_features_geoone (fun layer_name => Except.ok [layer_name])
        ⟨-48, -16, -47, -15⟩ LayerType.sigef_publico
      = Except.ok (["GeoINCRA:certificado_sigef_publico"], "geoone") := by
  refine ⟨rfl, rfl, rfl, rfl⟩

/-- C9: constructing a `BoundingBox` with inverted ordering fails
validation (confirming the first half of the claim), but the bbox-path
endpoint does not return a structured failure: its `except` handler
itself constructs `BoundingBox(0, 0, 0, 0)`, which fails the same
validator, so the exception escapes the route instead. -/
theorem claim_C9_bbox_path_handler_raises :
    mkBoundingBox 10 0 5 1 = Except.error "x_max deve ser maior que x_min"
  ∧ mkBoundingBox 0 0 0 0 = Except.error "x_max deve ser maior que x_min"
  ∧ consultar_por_bbox_path (fun _ => Except.ok ([], "incra"))
      (Except.ok ([], "incra")) (Except.ok ([], "geoone"))
      (fun f : ℕ => Except.ok f)
      [10, 0, 5, 1] LayerType.sigef_particular ServerType.auto 1000
      = (Except.error "x_max deve ser maior que x_min" :
          Except String (ConsultaResponse ℕ ℕ)) := by
  refine ⟨rfl, rfl, rfl⟩

/-- Aggregate feature list the all-layers AUTO loop produces: every
layer contributes its successful feature list (a failed or empty layer
contributes nothing). -/
def autoSuccessFeatures (wfsAuto : LayerType → Except String (List F × String)) : List F :=
  (LayerType.all.map (fun layer =>
    match wfsAuto layer with
    | .ok (features, _) => features
    | .error _ => [])).flatten

/-- Distinct provider labels, in order of first use, of the AUTO
sub-queries that returned at least one feature. -/
def autoUsedServers (wfsAuto : LayerType → Except String (List F × String)) : List String :=
  (LayerType.all.filterMap (fun layer =>
    match wfsAuto layer with
    | .ok (features, servidor) => if features.isEmpty then none else some servidor
    | .error _ => none)).foldl dedupAppend []

lemma lookup_append_of_none {α β : Type} [BEq α] (l₁ l₂ : List (α × β)) (k : α)
    (h : l₁.lookup k = none) : (l₁ ++ l₂).lookup k = l₂.lookup k := by
  induction l₁ with
  | nil => simp
  | cons p rest ih =>
    obtain ⟨a, b⟩ := p
    by_cases hak : k == a
    · simp [List.lookup, hak] at h
    · simp [List.lookup, hak] at h ⊢
      exact ih h

/-- C2: the AUTO single-layer procedure attempts the regional provider
first; if that attempt raises or returns zero features it returns the
national result (so a raising regional attempt paired with a national
success of N features yields exactly those N features under the
national label); and any returned pair is the verbatim result of
whichever provider produced it. -/
theorem claim_C2_auto_fallback {F : Type}
    (incra_result geoone_result : Except String (List F × String))
    (e : String) (h_raises : incra_result = Except.error e) :
    get_features_auto incra_result geoone_result = geoone_result
  ∧ (∀ (fs : List F) (s : String), geoone_result = Except.ok (fs, s) →
      get_features_auto incra_result geoone_result = Except.ok (fs, s))
  ∧ (∀ (ir gr : Except String (List F × String)) (s0 : String),
      ir = Except.ok ([], s0) → get_features_auto ir gr = gr)
  ∧ (∀ (ir gr : Except String (List F × String)) (fs : List F) (s : String),
      get_features_auto ir gr = Except.ok (fs, s) →
      (ir = Except.ok (fs, s) ∧ fs ≠ []) ∨ gr = Except.ok (fs, s)) := by
  subst h_raises
  refine ⟨rfl, ?_, ?_, ?_⟩
  · intro fs s h
    simpa [get_features_auto] using h
  · intro ir gr s0 h
    subst h
    simp [get_features_auto]
  · intro ir gr fs s h
    cases ir with
    | error e2 => exact Or.inr (by simpa [get_features_auto] using h)
    | ok p =>
      obtain ⟨fs0, s0⟩ := p
      by_cases hfs : fs0.isEmpty
      · exact Or.inr (by simpa [get_features_auto, hfs] using h)
      · left
        simp [get_features_auto, hfs] at h
        simp [h.1, h.2, List.isEmpty_iff] at hfs ⊢
        exact hfs

/-- C2 witness: a regional attempt that raises and a national provider
returning two features make the AUTO query return exactly those two
features with the national label. -/
theorem claim_C2_auto_fallback_witness :
    get_features_auto (Except.error "INCRA offline")
      (Except.ok ([10, 20], "geoone")) = Except.ok (([10, 20] : List ℕ), "geoone") :=
  (claim_C2_auto_fallback (Except.error "INCRA offline")
    (Except.ok ([10, 20], "geoone")) "INCRA offline" rfl).2.1 [10, 20] "geoone" rfl

/-- C8: resolving a municipality code that is cached performs no
external lookup and returns the cached name; a cache miss performs
exactly one lookup; a successful lookup stores the name so the next
resolution of the same code is a lookup-free cache hit; a failed
lookup returns the code unchanged with the cache unmodified, so a
later call retries. -/
theorem claim_C8_municipio_cache
    (ibge_lookup : String → Option String)
    (cache : List (String × String)) (codigo nome : String)
    (h_miss : cache.lookup codigo = none) :
    (∀ (c n : String), cache.lookup c = some n →
        get_municipio_name ibge_lookup cache c = (n, cache, 0))
  ∧ (get_municipio_name ibge_lookup cache codigo).2.2 = 1
  ∧ (ibge_lookup codigo = some nome →
        get_municipio_name ibge_lookup cache codigo
          = (nome, cache ++ [(codigo, nome)], 1)
      ∧ get_municipio_name ibge_lookup (cache ++ [(codigo, nome)]) codigo
          = (nome, cache ++ [(codigo, nome)], 0))
  ∧ (ibge_lookup codigo = none →
        get_municipio_name ibge_lookup cache codigo = (codigo, cache, 1)) := by
  refine ⟨?_, ?_, ?_, ?_⟩
  · intro c n h
    simp [get_municipio_name, h]
  · simp only [get_municipio_name, h_miss]
    cases ibge_lookup codigo <;> simp
  · intro h
    have hlook : (cache ++ [(codigo, nome)]).lookup codigo = some nome := by
      rw [lookup_append_of_none _ _ _ h_miss]
      simp [List.lookup]
    exact ⟨by simp [get_municipio_name, h_miss, h],
           by simp [get_municipio_name, hlook]⟩
  · intro h
    simp [get_municipio_name, h_miss, h]

/-- C8 witness: from a cold cache, a successful lookup caches the name
and the immediate second resolution is served from the cache. -/
theorem claim_C8_municipio_cache_witness :
    get_municipio_name (fun _ => some "Curitiba") [] "4103107"
      = ("Curitiba", [("4103107", "Curitiba")], 1)
  ∧ get_municipio_name (fun _ => some "Curitiba") [("4103107", "Curitiba")] "4103107"
      = ("Curitiba", [("4103107", "Curitiba")], 0) :=
  (claim_C8_municipio_cache (fun _ => some "Curitiba") [] "4103107" "Curitiba" rfl).2.2.1 rfl

/-- C10: the stored envelopes of AP and RR have their second slot
(nominal `y_min`) greater than their fourth slot (nominal `y_max`);
under the inclusive raw-bounds test a box meets the AP envelope exactly
when its longitude range overlaps and its latitude span covers both
inverted bounds (`y_max ≥ 4.45` and `y_min ≤ -0.04`, the bounds being
`mkRat 445 100` and `mkRat (-4) 100`); consequently every box with
`y_max < 4.45` — in particular any box geographically inside Amapá —
is excluded from region detection for AP. -/
theorem claim_C10_inverted_latitudes (b : BoundingBox)
    (h_y : b.y_max < mkRat 445 100) :
    ((UF_MAPPING.lookup "AP").map UfConfig.bbox
      = some [mkRat (-5488) 100, mkRat 445 100, mkRat (-4985) 100, mkRat (-4) 100])
  ∧ ((UF_MAPPING.lookup "RR").map UfConfig.bbox
      = some [mkRat (-6482) 100, mkRat 527 100, mkRat (-5899) 100, mkRat 116 100])
  ∧ (mkRat (-4) 100 < mkRat 445 100 ∧ mkRat 116 100 < mkRat 527 100)
  ∧ (∀ b' : BoundingBox,
      bboxes_intersect b'
          [mkRat (-5488) 100, mkRat 445 100, mkRat (-4985) 100, mkRat (-4) 100] = true
        ↔ (mkRat (-5488) 100 ≤ b'.x_max ∧ b'.x_min ≤ mkRat (-4985) 100
           ∧ mkRat 445 100 ≤ b'.y_max ∧ b'.y_min ≤ mkRat (-4) 100))
  ∧ "ap" ∉ detect_ufs_in_bbox b := by
  refine ⟨by decide, by decide, by decide, ?_, ?_⟩
  · intro b'
    simp [bboxes_intersect, not_or]
  · intro hmem
    obtain ⟨p, hp, hlow⟩ := List.mem_map.mp hmem
    obtain ⟨hpmem, hint⟩ := List.mem_filter.mp hp
    fin_cases hpmem <;>
      first
        | exact absurd hlow (by decide)
        | (simp only [bboxes_intersect, decide_eq_true_eq, not_or, not_lt] at hint
           exact absurd hint.2.2.1 (not_le.mpr h_y))

/-- C10 witness: a valid box geographically inside Amapá but with
`y_max = 2 < 4.45` is excluded from region detection for AP. -/
theorem claim_C10_inverted_latitudes_witness :
    (⟨-54, 1, -53, 2⟩ : BoundingBox).y_max < mkRat 445 100
  ∧ "ap" ∉ detect_ufs_in_bbox ⟨-54, 1, -53, 2⟩ :=
  ⟨by decide, (claim_C10_inverted_latitudes ⟨-54, 1, -53, 2⟩ (by decide)).2.2.2.2⟩

lemma listStartsWith_append (l t : List Char) : listStartsWith (l ++ t) l = true := by
  induction l with
  | nil => simp [listStartsWith]
  | cons c rest ih => simp [listStartsWith, ih]

lemma listContainsSub_append (p n : List Char) : listContainsSub n (p ++ n) = true := by
  induction p with
  | nil =>
    cases n with
    | nil => rfl
    | cons c rest =>
      have h := listStartsWith_append (c :: rest) []
      simp at h
      simp [listContainsSub, h]
  | cons c p ih =>
    simp [listContainsSub, ih]

lemma containsSubstr_append (p e : String) : containsSubstr (p ++ e) e = true := by
  obtain ⟨pl⟩ := p
  obtain ⟨el⟩ := e
  simpa [containsSubstr, String.append] using listContainsSub_append pl el

lemma process_foldl_length {F I : Type} (process_feature : F → Except String I)
    (h : ∀ f, (process_feature f).isOk = true) (l : List F) (acc : List I) :
    (l.foldl
      (fun imoveis feature =>
        match process_feature feature with
        | .ok imovel => imoveis ++ [imovel]
        | .error _ => imoveis)
      acc).length = acc.length + l.length := by
  induction l generalizing acc with
  | nil => simp
  | cons f rest ih =>
    cases hpf : process_feature f with
    | error e => have := h f; rw [hpf] at this; simp [Except.isOk, Except.toBool] at this
    | ok i =>
      simp only [List.foldl_cons, hpf]
      rw [ih]
      simp [List.length_append]
      omega

lemma autoLayerStep_foldl_fst {F : Type}
    (wfsAuto : LayerType → Except String (List F × String))
    (ls : List LayerType) (acc : List F × List String) :
    (ls.foldl (autoLayerStep wfsAuto) acc).1
      = acc.1 ++ (ls.map (fun layer =>
          match wfsAuto layer with
          | .ok (features, _) => features
          | .error _ => [])).flatten := by
  induction ls generalizing acc with
  | nil => simp
  | cons layer rest ih =>
    simp only [List.foldl_cons, List.map_cons, List.flatten_cons]
    rw [ih]
    cases h : wfsAuto layer with
    | error e => simp [autoLayerStep, h]
    | ok p =>
      obtain ⟨features, servidor⟩ := p
      by_cases hemp : features.isEmpty
      · simp [autoLayerStep, h, hemp, List.isEmpty_iff.mp hemp]
      · simp [autoLayerStep, h, hemp, List.append_assoc]

lemma autoLayerStep_foldl_snd {F : Type}
    (wfsAuto : LayerType → Except String (List F × String))
    (ls : List LayerType) (acc : List F × List String) :
    (ls.foldl (autoLayerStep wfsAuto) acc).2
      = (ls.filterMap (fun layer =>
          match wfsAuto layer with
          | .ok (features, servidor) => if features.isEmpty then none else some servidor
          | .error _ => none)).foldl dedupAppend acc.2 := by
  induction ls generalizing acc with
  | nil => simp
  | cons layer rest ih =>
    simp only [List.foldl_cons, List.filterMap_cons]
    cases h : wfsAuto layer with
    | error e =>
      rw [ih]
      simp [autoLayerStep, h]
    | ok p =>
      obtain ⟨features, servidor⟩ := p
      by_cases hemp : features.isEmpty
      · rw [ih]
        simp [autoLayerStep, h, hemp]
      · rw [ih]
        simp [autoLayerStep, h, hemp]

lemma consultar_imoveis_error_case {F I : Type}
    (wfsAuto : LayerType → Except String (List F × String))
    (wfsIncra wfsGeoone : Except String (List F × String))
    (process_feature : F → Except String I)
    (bbox : BoundingBox) (layer_type : LayerType) (server_type : ServerType)
    (limite : ℕ) (e : String)
    (h : consultar_inner wfsAuto wfsIncra wfsGeoone server_type = Except.error e) :
    consultar_imoveis wfsAuto wfsIncra wfsGeoone process_feature
        bbox layer_type server_type limite
      = { sucesso := false
          mensagem := "Erro na consulta: " ++ e
          total := 0
          servidor_utilizado := "erro"
          camada := layer_type.value
          bbox_consultado := bbox
          imoveis := []
          features := [] } := by
  unfold consultar_imoveis
  rw [h]

lemma consultar_imoveis_ok_case {F I : Type}
    (wfsAuto : LayerType → Except String (List F × String))
    (wfsIncra wfsGeoone : Except String (List F × String))
    (process_feature : F → Except String I)
    (bbox : BoundingBox) (layer_type : LayerType) (server_type : ServerType)
    (limite : ℕ) (features0 : List F) (servidor : String)
    (h : consultar_inner wfsAuto wfsIncra wfsGeoone server_type
          = Except.ok (features0, servidor)) :
    consultar_imoveis wfsAuto wfsIncra wfsGeoone process_feature
        bbox layer_type server_type limite
      = { sucesso := true
          mensagem := "Consulta realizada com sucesso. "
              ++ toString ((features0.take limite).foldl
                    (fun imoveis feature =>
                      match process_feature feature with
                      | .ok imovel => imoveis ++ [imovel]
                      | .error _ => imoveis) []).length
              ++ " imóveis encontrados."
          total := ((features0.take limite).foldl
                    (fun imoveis feature =>
                      match process_feature feature with
                      | .ok imovel => imoveis ++ [imovel]
                      | .error _ => imoveis) []).length
          servidor_utilizado := servidor
          camada := if server_type = ServerType.auto then "Todas as Camadas"
                    else
                      match LAYER_MAPPING_get layer_type.value with
                      | some layer_config => layer_config.name
                      | none => layer_type.value
          bbox_consultado := bbox
          imoveis := (features0.take limite).foldl
                    (fun imoveis feature =>
                      match process_feature feature with
                      | .ok imovel => imoveis ++ [imovel]
                      | .error _ => imoveis) []
          features := features0.take limite } := by
  unfold consultar_imoveis
  rw [h]

lemma consultar_imoveis_ok_fields {F I : Type}
    (wfsAuto : LayerType → Except String (List F × String))
    (wfsIncra wfsGeoone : Except String (List F × String))
    (process_feature : F → Except String I)
    (bbox : BoundingBox) (layer_type : LayerType) (server_type : ServerType)
    (limite : ℕ) (features0 : List F) (servidor : String)
    (h : consultar_inner wfsAuto wfsIncra wfsGeoone server_type
          = Except.ok (features0, servidor)) :
    (consultar_imoveis wfsAuto wfsIncra wfsGeoone process_feature
        bbox layer_type server_type limite).sucesso = true
  ∧ (consultar_imoveis wfsAuto wfsIncra wfsGeoone process_feature
        bbox layer_type server_type limite).features = features0.take limite
  ∧ (consultar_imoveis wfsAuto wfsIncra wfsGeoone process_feature
        bbox layer_type server_type limite).servidor_utilizado = servidor
  ∧ (consultar_imoveis wfsAuto wfsIncra wfsGeoone process_feature
        bbox layer_type server_type limite).total
      = ((features0.take limite).foldl
          (fun imoveis feature =>
            match process_feature feature with
            | .ok imovel => imoveis ++ [imovel]
            | .error _ => imoveis) []).length := by
  refine ⟨?_, ?_, ?_, ?_⟩ <;> (unfold consultar_imoveis; rw [h])

/-- C5 counterexample: at a pipeline failure the provider label the
code reports is the Portuguese string `erro`, not `error` as the claim
states. -/
theorem claim_C5_error_label_counterexample :
    (consultar_imoveis (fun _ => Except.ok ([], "incra"))
        (Except.error "connection timeout") (Except.ok ([], "geoone"))
        (fun f : ℕ => Except.ok f)
        ⟨-48, -16, -47, -15⟩ LayerType.sigef_particular ServerType.incra
        1000).servidor_utilizado = "erro"
  ∧ "erro" ≠ "error" :=
  ⟨rfl, by decide⟩

/-- C5 amended: when the query phase raises, `consultar_imoveis`
absorbs the exception and returns a normal response value with
`sucesso = false`, no records, `total = 0`, provider label `"erro"`
(not `"error"`), and a message containing the exception message; being
a total function, it propagates no exception. -/
theorem claim_C5_top_level_error_absorbed {F I : Type}
    (wfsAuto : LayerType → Except String (List F × String))
    (wfsIncra wfsGeoone : Except String (List F × String))
    (process_feature : F → Except String I)
    (bbox : BoundingBox) (layer_type : LayerType) (server_type : ServerType)
    (limite : ℕ) (e : String)
    (h_err : consultar_inner wfsAuto wfsIncra wfsGeoone server_type = Except.error e) :
    consultar_imoveis wfsAuto wfsIncra wfsGeoone process_feature
        bbox layer_type server_type limite
      = { sucesso := false
          mensagem := "Erro na consulta: " ++ e
          total := 0
          servidor_utilizado := "erro"
          camada := layer_type.value
          bbox_consultado := bbox
          imoveis := []
          features := [] }
  ∧ containsSubstr ("Erro na consulta: " ++ e) e = true := by
  exact ⟨consultar_imoveis_error_case wfsAuto wfsIncra wfsGeoone process_feature
      bbox layer_type server_type limite e h_err,
    containsSubstr_append "Erro na consulta: " e⟩

/-- C5 witness: a raising INCRA query yields the absorbed failure
response. -/
theorem claim_C5_top_level_error_absorbed_witness :
    consultar_imoveis (fun _ => Except.ok ([], "incra"))
        (Except.error "boom") (Except.ok ([], "geoone"))
        (fun f : ℕ => Except.ok f)
        ⟨-48, -16, -47, -15⟩ LayerType.sigef_publico ServerType.incra 50
      = { sucesso := false
          mensagem := "Erro na consulta: boom"
          total := 0
          servidor_utilizado := "erro"
          camada := "sigef_publico"
          bbox_consultado := ⟨-48, -16, -47, -15⟩
          imoveis := ([] : List ℕ)
          features := [] }
  ∧ containsSubstr "Erro na consulta: boom" "boom" = true :=
  claim_C5_top_level_error_absorbed (fun _ => Except.ok ([], "incra"))
    (Except.error "boom") (Except.ok ([], "geoone")) (fun f : ℕ => Except.ok f)
    ⟨-48, -16, -47, -15⟩ LayerType.sigef_publico ServerType.incra 50 "boom" rfl

/-- C6: truncation to `limite` happens once, after aggregation: a
GEOONE query whose aggregate is `fs` reports
`total = min limite fs.length`, and an all-layers AUTO query whose
per-layer aggregates are `fss` reports `total` as `limite` capped at
the total length of the concatenation of all per-layer lists — not a
per-sub-query cap. -/
theorem claim_C6_truncation_after_aggregation {F I : Type}
    (wfsAuto : LayerType → Except String (List F × String))
    (wfsIncra : Except String (List F × String))
    (fs : List F) (s : String) (fss : LayerType → List F) (sN : String)
    (process_feature : F → Except String I)
    (bbox : BoundingBox) (layer_type : LayerType) (limite : ℕ)
    (h1 : 1 ≤ limite) (h2 : limite ≤ 10000)
    (h_proc : ∀ f, (process_feature f).isOk = true) :
    (consultar_imoveis wfsAuto wfsIncra (Except.ok (fs, s)) process_feature
        bbox layer_type ServerType.geoone limite).total = min limite fs.length
  ∧ (consultar_imoveis (fun layer => Except.ok (fss layer, sN)) wfsIncra
        (Except.ok (fs, s)) process_feature bbox layer_type ServerType.auto
        limite).total
      = min limite ((LayerType.all.map (fun layer => (fss layer).length)).sum) := by
  have hfold1 : (LayerType.all.foldl
        (autoLayerStep (fun layer => Except.ok (fss layer, sN))) ([], [])).1
      = autoSuccessFeatures (fun layer => Except.ok (fss layer, sN)) := by
    rw [autoLayerStep_foldl_fst]
    simp [autoSuccessFeatures]
  have hfold2 : (LayerType.all.foldl
        (autoLayerStep (fun layer => Except.ok (fss layer, sN))) ([], [])).2
      = autoUsedServers (fun layer => Except.ok (fss layer, sN)) := by
    rw [autoLayerStep_foldl_snd]
    simp [autoUsedServers]
  constructor
  · rw [(consultar_imoveis_ok_fields wfsAuto wfsIncra (Except.ok (fs, s))
      process_feature bbox layer_type ServerType.geoone limite fs s rfl).2.2.2]
    rw [process_foldl_length process_feature h_proc]
    simp [List.length_take]
  · rw [(consultar_imoveis_ok_fields (fun layer => Except.ok (fss layer, sN))
      wfsIncra (Except.ok (fs, s)) process_feature bbox layer_type
      ServerType.auto limite
      (autoSuccessFeatures (fun layer => Except.ok (fss layer, sN)))
      (if (autoUsedServers (fun layer => Except.ok (fss layer, sN))).isEmpty
        then "auto"
        else String.intercalate "+"
          (autoUsedServers (fun layer => Except.ok (fss layer, sN))))
      (by simp only [consultar_inner, hfold1, hfold2])).2.2.2]
    rw [process_foldl_length process_feature h_proc]
    simp only [List.length_nil, Nat.zero_add, List.length_take]
    simp [autoSuccessFeatures, List.length_flatten, List.map_map, Function.comp_def]

/-- C6 witness: `limite = 2` over an aggregate of five features yields
`total = 2`. -/
theorem claim_C6_truncation_after_aggregation_witness :
    (consultar_imoveis (fun _ => Except.ok ([], "incra"))
        (Except.ok ([], "incra")) (Except.ok ([1, 2, 3, 4, 5], "geoone"))
        (fun f : ℕ => Except.ok f)
        ⟨-48, -16, -47, -15⟩ LayerType.sigef_particular ServerType.geoone
        2).total = 2 :=
  ((claim_C6_truncation_after_aggregation (fun _ => Except.ok ([], "incra"))
      (Except.ok ([], "incra")) [1, 2, 3, 4, 5] "geoone" (fun _ => [])
      "incra" (fun f : ℕ => Except.ok f) ⟨-48, -16, -47, -15⟩
      LayerType.sigef_particular 2 (by decide) (by decide)
      (fun f => rfl)).1).trans (by decide)

/-- C3 counterexample: when every layer of an all-layers AUTO query
returns zero features, the distinct union of providers that returned
at least one feature is empty and its `+`-join is the empty string,
but the code reports the label `auto` instead. -/
theorem claim_C3_empty_union_counterexample :
    autoUsedServers (fun _ => Except.ok (([] : List ℕ), "incra")) = []
  ∧ String.intercalate "+" ([] : List String) = ""
  ∧ (consultar_imoveis (fun _ => Except.ok (([] : List ℕ), "incra"))
        (Except.ok ([], "incra")) (Except.ok ([], "geoone"))
        (fun f : ℕ => Except.ok f)
        ⟨-48, -16, -47, -15⟩ LayerType.sigef_particular ServerType.auto
        1000).servidor_utilizado = "auto"
  ∧ "auto" ≠ "" := by
  refine ⟨rfl, rfl, rfl, by decide⟩

/-- C3 amended: an all-layers AUTO query visits every `LayerType`,
accumulates every successful feature list (a raising layer is skipped
without aborting the rest, and the result still reports success), and
labels the provider as the distinct union, in order of first use, of
the providers of the sub-queries that returned at least one feature,
joined with `+` — except that when that union is empty the label is
`auto`. -/
theorem claim_C3_all_layers_aggregation {F I : Type}
    (wfsAuto : LayerType → Except String (List F × String))
    (wfsIncra wfsGeoone : Except String (List F × String))
    (process_feature : F → Except String I)
    (bbox : BoundingBox) (layer_type : LayerType) (limite : ℕ)
    (h_lim : (autoSuccessFeatures wfsAuto).length ≤ limite) :
    (consultar_imoveis wfsAuto wfsIncra wfsGeoone process_feature
        bbox layer_type ServerType.auto limite).sucesso = true
  ∧ (consultar_imoveis wfsAuto wfsIncra wfsGeoone process_feature
        bbox layer_type ServerType.auto limite).features
      = autoSuccessFeatures wfsAuto
  ∧ (consultar_imoveis wfsAuto wfsIncra wfsGeoone process_feature
        bbox layer_type ServerType.auto limite).servidor_utilizado
      = (if autoUsedServers wfsAuto = [] then "auto"
         else String.intercalate "+" (autoUsedServers wfsAuto)) := by
  have hfold1 : (LayerType.all.foldl (autoLayerStep wfsAuto) ([], [])).1
      = autoSuccessFeatures wfsAuto := by
    rw [autoLayerStep_foldl_fst]
    simp [autoSuccessFeatures]
  have hfold2 : (LayerType.all.foldl (autoLayerStep wfsAuto) ([], [])).2
      = autoUsedServers wfsAuto := by
    rw [autoLayerStep_foldl_snd]
    simp [autoUsedServers]
  have hfields := consultar_imoveis_ok_fields wfsAuto wfsIncra wfsGeoone
    process_feature bbox layer_type ServerType.auto limite
    (autoSuccessFeatures wfsAuto)
    (if (autoUsedServers wfsAuto).isEmpty then "auto"
     else String.intercalate "+" (autoUsedServers wfsAuto))
    (by simp only [consultar_inner, hfold1, hfold2])
  refine ⟨hfields.1, ?_, ?_⟩
  · rw [hfields.2.1]
    exact List.take_of_length_le h_lim
  · rw [hfields.2.2.1]
    cases hu : autoUsedServers wfsAuto with
    | nil => simp
    | cons a rest => simp

/-- C3 witness: with one layer returning three features, one raising
and the rest empty, the aggregate has the three features, the query
reports success and the label names only the provider that returned
data. -/
theorem claim_C3_all_layers_aggregation_witness :
    (consultar_imoveis
        (fun layer =>
          match layer with
          | LayerType.sigef_particular => Except.ok ([1, 2, 3], "incra")
          | LayerType.sigef_publico => Except.error "layer offline"
          | _ => Except.ok (([] : List ℕ), "geoone"))
        (Except.ok ([], "incra")) (Except.ok ([], "geoone"))
        (fun f : ℕ => Except.ok f)
        ⟨-48, -16, -47, -15⟩ LayerType.sigef_particular ServerType.auto
        1000).sucesso = true
  ∧ (consultar_imoveis
        (fun layer =>
          match layer with
          | LayerType.sigef_particular => Except.ok ([1, 2, 3], "incra")
          | LayerType.sigef_publico => Except.error "layer offline"
          | _ => Except.ok (([] : List ℕ), "geoone"))
        (Except.ok ([], "incra")) (Except.ok ([], "geoone"))
        (fun f : ℕ => Except.ok f)
        ⟨-48, -16, -47, -15⟩ LayerType.sigef_particular ServerType.auto
        1000).features = [1, 2, 3]
  ∧ (consultar_imoveis
        (fun layer =>
          match layer with
          | LayerType.sigef_particular => Except.ok ([1, 2, 3], "incra")
          | LayerType.sigef_publico => Except.error "layer offline"
          | _ => Except.ok (([] : List ℕ), "geoone"))
        (Except.ok ([], "incra")) (Except.ok ([], "geoone"))
        (fun f : ℕ => Except.ok f)
        ⟨-48, -16, -47, -15⟩ LayerType.sigef_particular ServerType.auto
        1000).servidor_utilizado = "incra" := by
  have h := claim_C3_all_layers_aggregation
    (fun layer =>
      match layer with
      | LayerType.sigef_particular => Except.ok ([1, 2, 3], "incra")
      | LayerType.sigef_publico => Except.error "layer offline"
      | _ => Except.ok (([] : List ℕ), "geoone"))
    (Except.ok ([], "incra")) (Except.ok ([], "geoone"))
    (fun f : ℕ => Except.ok f)
    ⟨-48, -16, -47, -15⟩ LayerType.sigef_particular 1000 (by decide)
  exact ⟨h.1, h.2.1.trans (by decide), h.2.2.trans (by decide)⟩

/-- C7: the normalised area comes from the first truthy value among
the ordered candidate keys (`area_ha` before `area`, `area_hecta`,
`area_calc`, regardless of attribute order); a positive parsed value
is divided by 10000 exactly when it exceeds 1000000 and then rounded
to 4 decimal places; a non-numeric value and an absent value yield
`none`; in particular a raw area of `2000000` normalises to `200`
(that is, `200.0`) and a raw area of `150.25` (here `mkRat 15025 100`)
is returned unchanged. -/
theorem claim_C7_area_normalisation (q : ℚ) (hq : 0 < q) :
    parse_area [("area_calc", AttrVal.num 999), ("area_ha", AttrVal.num q)]
      = some (pyRound4 (if q > 1000000 then q / 10000 else q))
  ∧ parse_area [("area_ha", AttrVal.txt "n/a")] = none
  ∧ parse_area ([] : List (String × AttrVal)) = none
  ∧ parse_area [("area", AttrVal.num 2000000)] = some 200
  ∧ parse_area [("area_hecta", AttrVal.num (mkRat 15025 100))]
      = some (mkRat 15025 100)
  ∧ (mkRat 15025 100 : ℚ) = 150.25 := by
  refine ⟨?_, by decide, by rfl, ?_, ?_, by rw [Rat.mkRat_eq_div]; norm_num⟩
  · have hchain : props_get_or_chain
        [("area_calc", AttrVal.num 999), ("area_ha", AttrVal.num q)]
        ["area_ha", "area", "area_hecta", "area_calc"]
        = some (AttrVal.num q) := by
      simp [props_get_or_chain, List.lookup, AttrVal.truthy, hq.ne']
    unfold parse_area
    rw [hchain]
    simp only [pyFloat]
  · have hchain : props_get_or_chain [("area", AttrVal.num 2000000)]
        ["area_ha", "area", "area_hecta", "area_calc"]
        = some (AttrVal.num 2000000) := by
      decide
    unfold parse_area
    rw [hchain]
    simp only [pyFloat]
    rw [if_pos (by norm_num : (2000000 : ℚ) > 1000000)]
    have h200 : (2000000 : ℚ) / 10000 = 200 := by norm_num
    rw [h200]
    have hr : pyRound4 200 = 200 := by
      unfold pyRound4 roundHalfEven
      norm_num [round_eq]
    rw [hr]
  · have hchain : props_get_or_chain
        [("area_hecta", AttrVal.num (mkRat 15025 100))]
        ["area_ha", "area", "area_hecta", "area_calc"]
        = some (AttrVal.num (mkRat 15025 100)) := by
      decide
    unfold parse_area
    rw [hchain]
    simp only [pyFloat]
    rw [if_neg (by rw [Rat.mkRat_eq_div]; norm_num :
      ¬ (mkRat 15025 100 : ℚ) > 1000000)]
    have hr : pyRound4 (mkRat 15025 100) = mkRat 15025 100 := by
      unfold pyRound4 roundHalfEven
      rw [Rat.mkRat_eq_div]
      norm_num [round_eq]
    rw [hr]

/-- C7 witness: the candidate-priority conjunct instantiated at the
concrete area `3`. -/
theorem claim_C7_area_normalisation_witness :
    (0 : ℚ) < 3
  ∧ parse_area [("area_calc", AttrVal.num 999), ("area_ha", AttrVal.num 3)]
      = some (pyRound4 (if (3 : ℚ) > 1000000 then 3 / 10000 else 3)) :=
  ⟨by norm_num, (claim_C7_area_normalisation 3 (by norm_num)).1⟩

end Sigef
